import Mathlib

/-!
Shallow embedding of the Visual Crossing Home Assistant integration
(files `custom_components/visualcrossing/__init__.py` and
`custom_components/visualcrossing/weather.py`), together with the
precipitation-aggregation layer and the host-coordinator refresh behaviour
described by the design specification where the corresponding module is not
part of the source tree.
-/

/-! Condition mapping: `weather.py`, `format_condition`.  The lookup table
`CONDITIONS_MAP` itself lives in `const.py`, which is not part of the source
tree; the function is therefore embedded generically over any association
list of `(canonical key, provider values)` pairs, mirroring Python dict
iteration in insertion order. -/

def format_condition (conditionsMap : List (String × List String)) (condition : String) : String :=
  match conditionsMap with
  | [] => condition
  | (key, values) :: rest =>
      if condition ∈ values then key else format_condition rest condition

/-! Weather coordinator: `__init__.py`, `VCDataUpdateCoordinator`. -/

/-- Python `random.randrange(start, stop)`: a uniformly chosen integer of the
half-open range `[start, stop)`, here represented as a function of the random
source `r`. -/
def randrange (start stop r : Nat) : Nat := start + r % (stop - start)

/-- The weather coordinator's update interval in minutes, from
`datetime.timedelta(minutes=randrange(31, 32))`. -/
def weatherUpdateIntervalMinutes (r : Nat) : Nat := randrange 31 32 r

/-- The exception classes imported from `pyVisualCrossing`, plus a case for
any other exception. -/
inductive VCError
  | unauthorized
  | badRequest
  | tooManyRequests
  | internalServerError
  | other
deriving DecidableEq

/-- How a coordinator update surfaces a failure to the host:
`ConfigEntryNotReady` or `UpdateFailed`. -/
inductive CoordFailure
  | notReady
  | updateFailed
deriving DecidableEq

/-- `VCDataUpdateCoordinator._async_update_data`: the fetch result is passed
through unchanged on success, and each exception class is mapped by the
chain of `except` clauses. -/
def weather_async_update_data {W : Type} (res : Except VCError W) : Except CoordFailure W :=
  match res with
  | .ok d => .ok d
  | .error .unauthorized => .error .notReady
  | .error .badRequest => .error .updateFailed
  | .error .tooManyRequests => .error .updateFailed
  | .error .internalServerError => .error .notReady
  | .error .other => .error .updateFailed

/-! Weather snapshot: `__init__.py`, `VCWeatherData.fetch_data`.  The payload
type, daily item type and hourly item type of the third-party client are
abstract parameters. -/

/-- The `ForecastData` payload returned by `pyVisualCrossing`, carrying the
current-conditions fields together with the two forecast sequences. -/
structure ForecastData (α δ η : Type) where
  payload : α
  forecast_daily : List δ
  forecast_hourly : List η

/-- The state owned by `VCWeatherData`: the three snapshot fields. -/
structure VCWeatherState (α δ η : Type) where
  current_weather_data : Option (ForecastData α δ η)
  daily_forecast : List δ
  hourly_forecast : List η

/-- Outcome of `await self._weather_data.async_fetch_data()`: the call
raised, returned a falsy response, or returned a payload. -/
inductive FetchOutcome (α δ η : Type)
  | raised
  | received (resp : Option (ForecastData α δ η))

/-- Errors `fetch_data` can propagate: the client's own exception, or the
`CannotConnect` raised on a falsy response. -/
inductive FetchError
  | clientRaised
  | cannotConnect
deriving DecidableEq

/-- The snapshot built from one successful response: all three fields come
from `resp` (`resp`, `resp.forecast_daily`, `resp.forecast_hourly`). -/
def snapshotOf {α δ η : Type} (r : ForecastData α δ η) : VCWeatherState α δ η :=
  { current_weather_data := some r,
    daily_forecast := r.forecast_daily,
    hourly_forecast := r.forecast_hourly }

/-- `VCWeatherData.fetch_data`: raise before any assignment on failure, and
on success overwrite all three snapshot fields from the response. -/
def fetch_data {α δ η : Type} (s : VCWeatherState α δ η) (out : FetchOutcome α δ η) :
    Except FetchError (VCWeatherState α δ η) :=
  match out with
  | .raised => .error .clientRaised
  | .received none => .error .cannotConnect
  | .received (some r) =>
      let _ := s
      .ok (snapshotOf r)

/-- One poll of the weather coordinator as a state transition: the stored
snapshot after the poll is the prior state when `fetch_data` raised, and the
returned state on success. -/
def pollStep {α δ η : Type} (s : VCWeatherState α δ η) (out : FetchOutcome α δ η) :
    VCWeatherState α δ η :=
  match fetch_data s out with
  | .error _ => s
  | .ok t => t

/-! Config-entry setup: `__init__.py`, `async_setup_entry`. -/

/-- The abort signal of a failed first refresh. -/
inductive SetupAbort
  | configEntryNotReady
deriving DecidableEq

/-- Modelled from the spec: the host's `DataUpdateCoordinator.async_refresh`
(Home Assistant, not in the source tree) swallows the update failure, leaving
the coordinator registered with no data, per the no-fatal-class taxonomy of
the error-handling design. -/
def async_refresh {P : Type} (res : Except CoordFailure P) : Option P :=
  match res with
  | .ok p => some p
  | .error _ => none

/-- What a completed setup produced: the weather data, the precipitation
coordinator's data (possibly absent), and whether the platforms were
forwarded (entities registered, setup returned True). -/
structure SetupResult (W P : Type) where
  weatherData : W
  precipData : Option P
  forwarded : Bool
deriving DecidableEq

/-- `async_setup_entry`, with the host refresh primitives modelled from the
spec: `async_config_entry_first_refresh` raises on a failed first refresh and
aborts setup before any entity is registered, while the precipitation
coordinator's `async_refresh` failure is swallowed and setup still completes
and returns True. -/
def async_setup_entry {W P : Type} (wres : Except CoordFailure W)
    (pres : Except CoordFailure P) : Except SetupAbort (SetupResult W P) :=
  match wres with
  | .error _ => .error .configEntryNotReady
  | .ok w => .ok { weatherData := w, precipData := async_refresh pres, forwarded := true }

/-! Dates: embedding of `datetime.date` arithmetic and `date.isoformat` as
used by `VCPrecipCoordinator._async_update_data`.  Python dates keep
`1 <= year <= 9999`, so `isoformat` always renders exactly four year digits
and two month and day digits. -/

/-- A proleptic Gregorian calendar date, as `datetime.date`. -/
structure Date where
  year : Nat
  month : Nat
  day : Nat
deriving DecidableEq

def isLeapYear (y : Nat) : Bool :=
  y % 4 == 0 && (y % 100 != 0 || y % 400 == 0)

def daysInMonth (y m : Nat) : Nat :=
  if m = 2 then (if isLeapYear y then 29 else 28)
  else if m = 4 ∨ m = 6 ∨ m = 9 ∨ m = 11 then 30
  else 31

def nextDay (d : Date) : Date :=
  if d.day < daysInMonth d.year d.month then { d with day := d.day + 1 }
  else if d.month < 12 then { year := d.year, month := d.month + 1, day := 1 }
  else { year := d.year + 1, month := 1, day := 1 }

def prevDay (d : Date) : Date :=
  if 1 < d.day then { d with day := d.day - 1 }
  else if 1 < d.month then
    { year := d.year, month := d.month - 1, day := daysInMonth d.year (d.month - 1) }
  else { year := d.year - 1, month := 12, day := 31 }

/-- `d + datetime.timedelta(days=n)`. -/
def addDays (d : Date) : Nat → Date
  | 0 => d
  | n + 1 => addDays (nextDay d) n

/-- `d - datetime.timedelta(days=n)`. -/
def subDays (d : Date) : Nat → Date
  | 0 => d
  | n + 1 => subDays (prevDay d) n

/-- The two decimal digits of `n % 100`, most significant first. -/
def pad2 (n : Nat) : List Char :=
  [Nat.digitChar (n / 10 % 10), Nat.digitChar (n % 10)]

/-- The four decimal digits of `n % 10000`, most significant first. -/
def pad4 (n : Nat) : List Char :=
  [Nat.digitChar (n / 1000 % 10), Nat.digitChar (n / 100 % 10),
   Nat.digitChar (n / 10 % 10), Nat.digitChar (n % 10)]

/-- `date.isoformat()`: render the date as `YYYY-MM-DD`. -/
def Date.isoformat (d : Date) : String :=
  String.mk (pad4 d.year ++ ('-' :: (pad2 d.month ++ ('-' :: pad2 d.day))))

/-- Checker for the ISO-8601 calendar-date shape `YYYY-MM-DD`: ten
characters, digits at the year, month and day positions, dashes between. -/
def isYYYYMMDD (s : String) : Bool :=
  match s.data with
  | [y1, y2, y3, y4, s1, m1, m2, s2, d1, d2] =>
      y1.isDigit && y2.isDigit && y3.isDigit && y4.isDigit && s1 == '-' &&
      m1.isDigit && m2.isDigit && s2 == '-' && d1.isDigit && d2.isDigit
  | _ => false

/-! Precipitation coordinator request: `__init__.py`,
`VCPrecipCoordinator`.  Latitude and longitude appear in the URL through
Python string interpolation and are taken here as their rendered strings. -/

structure HttpRequest where
  method : String
  url : String
  params : List (String × String)
deriving DecidableEq

def timelineBaseUrl : String :=
  "https://weather.visualcrossing.com/VisualCrossingWebServices/rest/services/timeline/"

/-- The single request built by `VCPrecipCoordinator._async_update_data` for
the current date: `GET {base}{lat},{lon}/{start}/{end}` with
`start = today - 1 day` and `end = today + 7 days`, and the four fixed query
parameters. -/
def precipFetchRequest (lat lon key : String) (today : Date) : HttpRequest :=
  { method := "GET",
    url := timelineBaseUrl ++ lat ++ "," ++ lon ++ "/" ++
      (subDays today 1).isoformat ++ "/" ++ (addDays today 7).isoformat,
    params := [("unitGroup", "uk"), ("include", "hours,obs"),
               ("elements", "datetime,precip"), ("key", key)] }

/-- All HTTP calls one precipitation update performs: exactly the one
`session.get` of `_async_update_data`. -/
def precipUpdateHttpCalls (lat lon key : String) (today : Date) : List HttpRequest :=
  [precipFetchRequest lat lon key today]

/-- The precipitation coordinator's update interval,
`datetime.timedelta(hours=1)`, in seconds. -/
def precipUpdateIntervalSeconds : Nat := 3600

/-! Precipitation update outcome handling. -/

/-- Outcome of the `session.get` call: the transport failed, or a response
with a status code and a parsed JSON body arrived. -/
inductive TransportOutcome (γ : Type)
  | transportError
  | response (status : Nat) (body : γ)

/-- Modelled from the spec: a response status counts as success exactly when
it is 2xx; `resp.raise_for_status()` (aiohttp, not in the source tree) raises
on a non-2xx status per the stated failure contract. -/
def ok_status (status : Nat) : Bool :=
  decide (200 ≤ status) && decide (status < 300)

/-- `VCPrecipCoordinator._async_update_data` composed with the modelled
transport: a transport error or a non-2xx status surfaces as `UpdateFailed`,
and a 2xx response returns the parsed body verbatim. -/
def precip_async_update_data {γ : Type} (out : TransportOutcome γ) : Except CoordFailure γ :=
  match out with
  | .transportError => .error .updateFailed
  | .response st body => if ok_status st then .ok body else .error .updateFailed

/-- Modelled from the spec: one tick of the host coordinator around the
precipitation update, which keeps the prior Timeline and records the surfaced
failure when the update raises, and stores the new body on success. -/
def precipStep {γ : Type} (prior : Option γ) (out : TransportOutcome γ) :
    Option γ × Option CoordFailure :=
  match precip_async_update_data out with
  | .error f => (prior, some f)
  | .ok body => (some body, none)

/-! Aggregation layer.  Modelled from the spec: the four rolling-sum
functions over `(Timeline, now)` of the aggregation design, with rational
amounts in place of doubles, timestamps as epoch seconds and dates as day
ordinals. -/

/-- Modelled from the spec: an Hour of the Timeline, a timestamp in epoch
seconds and an optional `precip` amount (absent or null reads as zero). -/
structure Hour where
  ts : ℤ
  precip : Option ℚ
deriving DecidableEq

/-- Modelled from the spec: a Day of the Timeline, a date as a day ordinal,
an optional `precip` amount, and the ordered Hour entries. -/
structure Day where
  date : ℤ
  precip : Option ℚ
  hours : List Hour
deriving DecidableEq

/-- Modelled from the spec: the Timeline, an ordered sequence of Days. -/
structure Timeline where
  days : List Day
deriving DecidableEq

/-- A missing or null `precip` value is treated as zero. -/
def precipOrZero (p : Option ℚ) : ℚ := p.getD 0

/-- Round to two decimal places. -/
def round2 (q : ℚ) : ℚ := ((round (q * 100) : ℤ) : ℚ) / 100

/-- The half-open timestamp window `lo <= ts < hi`. -/
def inWindow (lo hi ts : ℤ) : Bool := decide (lo ≤ ts) && decide (ts < hi)

/-- Scan a Day's Hour entries, adding the `precip` of each Hour whose
timestamp falls in the half-open window onto the accumulator. -/
def hoursWindowSum (lo hi : ℤ) (hs : List Hour) (acc : ℚ) : ℚ :=
  hs.foldl (fun a h => if inWindow lo hi h.ts then a + precipOrZero h.precip else a) acc

/-- Modelled from the spec: `trailing_hours(Timeline, now, hrs)` sums
`Hour.precip` over `now - hrs <= ts < now` and rounds to two decimals. -/
def trailing_hours (tl : Timeline) (now : ℤ) (hrs : ℕ) : ℚ :=
  round2 (tl.days.foldl
    (fun acc d => hoursWindowSum (now - (hrs : ℤ) * 3600) now d.hours acc) 0)

/-- Modelled from the spec: `leading_hours(Timeline, now, hrs)` sums
`Hour.precip` over `now <= ts < now + hrs` and rounds to two decimals. -/
def leading_hours (tl : Timeline) (now : ℤ) (hrs : ℕ) : ℚ :=
  round2 (tl.days.foldl
    (fun acc d => hoursWindowSum now (now + (hrs : ℤ) * 3600) d.hours acc) 0)

/-- Modelled from the spec: `trailing_days(Timeline, today, n)` sums
`Day.precip` over the strict open interval `today - n < date < today` and
rounds to two decimals. -/
def trailing_days (tl : Timeline) (today : ℤ) (n : ℕ) : ℚ :=
  round2 (tl.days.foldl
    (fun acc d =>
      if decide (today - (n : ℤ) < d.date) && decide (d.date < today) then
        acc + precipOrZero d.precip
      else acc) 0)

/-- Modelled from the spec: `leading_days(Timeline, today, n)` sums
`Day.precip` over `today < date <= today + n` and rounds to two decimals. -/
def leading_days (tl : Timeline) (today : ℤ) (n : ℕ) : ℚ :=
  round2 (tl.days.foldl
    (fun acc d =>
      if decide (today < d.date) && decide (d.date ≤ today + (n : ℤ)) then
        acc + precipOrZero d.precip
      else acc) 0)

/-- All Hour entries of the Timeline, in order. -/
def allHours (tl : Timeline) : List Hour := (tl.days.map Day.hours).flatten

/-! Concrete sample values used by the witness theorems. -/

def sampleConditionsMap : List (String × List String) :=
  [("rainy", ["rain", "showers"]), ("cloudy", ["overcast"])]

def sampleUnmapped : String := "tornado"

def sampleForecast : ForecastData Nat Nat Nat :=
  { payload := 1, forecast_daily := [2], forecast_hourly := [3] }

def sampleWeatherState : VCWeatherState Nat Nat Nat :=
  { current_weather_data := none, daily_forecast := [], hourly_forecast := [] }

def emptyTimeline : Timeline := { days := [] }

/-! Helper lemmas. -/

theorem digitChar_mod_isDigit (n : Nat) : (Nat.digitChar (n % 10)).isDigit = true := by
  have hb : ∀ k, k < 10 → (Nat.digitChar k).isDigit = true := by decide
  exact hb _ (Nat.mod_lt n (by norm_num))

theorem iso_shape (d : Date) : isYYYYMMDD d.isoformat = true := by
  show isYYYYMMDD
      (String.mk (pad4 d.year ++ ('-' :: (pad2 d.month ++ ('-' :: pad2 d.day))))) = true
  simp [isYYYYMMDD, pad4, pad2, digitChar_mod_isDigit]

theorem round2_zero : round2 0 = 0 := by
  simp [round2]

theorem hoursWindowSum_eq_filter_sum (lo hi : ℤ) (hs : List Hour) (a : ℚ) :
    hoursWindowSum lo hi hs a =
      a + ((hs.filter (fun h => inWindow lo hi h.ts)).map
        (fun h => precipOrZero h.precip)).sum := by
  induction hs generalizing a with
  | nil => simp [hoursWindowSum]
  | cons x t ih =>
      rw [show hoursWindowSum lo hi (x :: t) a =
          hoursWindowSum lo hi t
            (if inWindow lo hi x.ts then a + precipOrZero x.precip else a) from rfl]
      cases hx : inWindow lo hi x.ts with
      | true => simp [hx, ih, List.filter_cons, add_assoc]
      | false => simp [hx, ih, List.filter_cons]

theorem daysFold_eq_filter_sum (lo hi : ℤ) (ds : List Day) (a : ℚ) :
    ds.foldl (fun acc d => hoursWindowSum lo hi d.hours acc) a =
      a + (((ds.map Day.hours).flatten.filter (fun h => inWindow lo hi h.ts)).map
        (fun h => precipOrZero h.precip)).sum := by
  induction ds generalizing a with
  | nil => simp
  | cons d t ih =>
      rw [List.foldl_cons, ih, hoursWindowSum_eq_filter_sum]
      simp [List.filter_append, add_assoc]

/-! Claim theorems. -/

/-- C5: a condition string that appears in no value list of the conditions
map is returned unchanged by `format_condition` (which, being a total
function, never fails on any string input). -/
theorem format_condition_unmapped (m : List (String × List String)) (c : String)
    (h : ∀ p ∈ m, c ∉ p.2) : format_condition m c = c := by
  induction m with
  | nil => rfl
  | cons kv rest ih =>
      have hc : c ∉ kv.2 := h kv (List.mem_cons_self kv rest)
      have hrest : ∀ p ∈ rest, c ∉ p.2 := fun p hp => h p (List.mem_cons_of_mem kv hp)
      obtain ⟨key, values⟩ := kv
      simp only [format_condition]
      rw [if_neg hc]
      exact ih hrest

/-- Witness for C5 at a concrete map and a concrete unmapped string. -/
theorem format_condition_unmapped_witness :
    (∀ p ∈ sampleConditionsMap, sampleUnmapped ∉ p.2) ∧
    format_condition sampleConditionsMap sampleUnmapped = sampleUnmapped :=
  ⟨by decide, format_condition_unmapped sampleConditionsMap sampleUnmapped (by decide)⟩

/-- C7: the weather coordinator's update interval,
`randrange(31, 32)` minutes, is the same for every value of the random
source — the half-open range `[31, 32)` contains the single integer 31, so
the interval is a fixed constant and is never randomized. -/
theorem weather_update_interval_constant :
    ∀ r : Nat, weatherUpdateIntervalMinutes r = 31 := by
  intro r
  simp [weatherUpdateIntervalMinutes, randrange, Nat.mod_one]

/-- C2: the weather coordinator's error classification — unauthorized and
internal-server errors surface as not-ready, bad-request, rate-limited and
any other error surface as update-failed, and every error is classified. -/
theorem weather_error_taxonomy (W : Type) :
    (@weather_async_update_data W (Except.error VCError.unauthorized) =
      Except.error CoordFailure.notReady) ∧
    (@weather_async_update_data W (Except.error VCError.badRequest) =
      Except.error CoordFailure.updateFailed) ∧
    (@weather_async_update_data W (Except.error VCError.tooManyRequests) =
      Except.error CoordFailure.updateFailed) ∧
    (@weather_async_update_data W (Except.error VCError.internalServerError) =
      Except.error CoordFailure.notReady) ∧
    (@weather_async_update_data W (Except.error VCError.other) =
      Except.error CoordFailure.updateFailed) ∧
    (∀ e : VCError, ∃ f : CoordFailure,
      @weather_async_update_data W (Except.error e) = Except.error f) := by
  refine ⟨rfl, rfl, rfl, rfl, rfl, ?_⟩
  intro e
  cases e <;> exact ⟨_, rfl⟩

/-- C1: a failed fetch leaves the stored snapshot entirely unchanged, a
successful fetch publishes the snapshot built wholly from the response, and
the published state is always either the prior snapshot or the new one in
full — never a mix. -/
theorem weather_snapshot_atomic {α δ η : Type} (s : VCWeatherState α δ η)
    (out : FetchOutcome α δ η) :
    (∀ e, fetch_data s out = Except.error e → pollStep s out = s) ∧
    (∀ r, out = FetchOutcome.received (some r) → pollStep s out = snapshotOf r) ∧
    (pollStep s out = s ∨ ∃ r, pollStep s out = snapshotOf r) := by
  refine ⟨?_, ?_, ?_⟩
  · intro e he
    simp [pollStep, he]
  · intro r hr
    subst hr
    rfl
  · cases out with
    | raised => exact Or.inl rfl
    | received resp =>
        cases resp with
        | none => exact Or.inl rfl
        | some r => exact Or.inr ⟨r, rfl⟩

/-- Witness for C1: a raised fetch keeps the prior state, and a successful
fetch publishes the full new snapshot, at concrete inputs. -/
theorem weather_snapshot_atomic_witness :
    pollStep sampleWeatherState FetchOutcome.raised = sampleWeatherState ∧
    pollStep sampleWeatherState (FetchOutcome.received (some sampleForecast)) =
      snapshotOf sampleForecast := by
  constructor
  · exact (weather_snapshot_atomic sampleWeatherState FetchOutcome.raised).1
      FetchError.clientRaised rfl
  · exact (weather_snapshot_atomic sampleWeatherState
      (FetchOutcome.received (some sampleForecast))).2.1 sampleForecast rfl

/-- C10: setup is asymmetric — a failed weather first refresh aborts
`async_setup_entry` before any entity is registered, while a failed
precipitation refresh still lets setup complete and return True with the
precipitation coordinator registered and holding no data. -/
theorem setup_entry_asymmetric {W P : Type} (wres : Except CoordFailure W)
    (pres : Except CoordFailure P) :
    (∀ e, wres = Except.error e →
      async_setup_entry wres pres = Except.error SetupAbort.configEntryNotReady) ∧
    (∀ w e, wres = Except.ok w → pres = Except.error e →
      async_setup_entry wres pres =
        Except.ok { weatherData := w, precipData := none, forwarded := true }) := by
  constructor
  · intro e he
    subst he
    rfl
  · intro w e hw hp
    subst hw
    subst hp
    rfl

/-- Witness for C10 at concrete refresh outcomes. -/
theorem setup_entry_asymmetric_witness :
    @async_setup_entry Nat Nat (Except.error CoordFailure.notReady) (Except.ok 0) =
      Except.error SetupAbort.configEntryNotReady ∧
    @async_setup_entry Nat Nat (Except.ok 1) (Except.error CoordFailure.updateFailed) =
      Except.ok { weatherData := 1, precipData := none, forwarded := true } := by
  constructor
  · exact (setup_entry_asymmetric (Except.error CoordFailure.notReady)
      (Except.ok 0)).1 CoordFailure.notReady rfl
  · exact (setup_entry_asymmetric (Except.ok 1)
      (Except.error CoordFailure.updateFailed)).2 1 CoordFailure.updateFailed rfl rfl

/-- C3: each precipitation update requests the window from yesterday
(`today - 1 day`) through `today + 7 days`, both dates rendered in the
ISO-8601 `YYYY-MM-DD` shape, and the poller's timer interval is one hour. -/
theorem precip_window_and_schedule (lat lon key : String) (today : Date) :
    (precipFetchRequest lat lon key today).url =
      timelineBaseUrl ++ lat ++ "," ++ lon ++ "/" ++
        (subDays today 1).isoformat ++ "/" ++ (addDays today 7).isoformat ∧
    isYYYYMMDD (subDays today 1).isoformat = true ∧
    isYYYYMMDD (addDays today 7).isoformat = true ∧
    precipUpdateIntervalSeconds = 3600 :=
  ⟨rfl, iso_shape (subDays today 1), iso_shape (addDays today 7), rfl⟩

/-- C4: each precipitation update issues exactly one request, a GET of the
timeline endpoint for `{lat},{lon}/{start}/{end}`, carrying exactly the
query parameters unitGroup=uk, include=hours,obs, elements=datetime,precip
and key. -/
theorem precip_request_exact (lat lon key : String) (today : Date) :
    precipUpdateHttpCalls lat lon key today = [precipFetchRequest lat lon key today] ∧
    (precipFetchRequest lat lon key today).method = "GET" ∧
    (precipFetchRequest lat lon key today).url =
      "https://weather.visualcrossing.com/VisualCrossingWebServices/rest/services/timeline/"
        ++ lat ++ "," ++ lon ++ "/" ++
        (subDays today 1).isoformat ++ "/" ++ (addDays today 7).isoformat ∧
    (precipFetchRequest lat lon key today).params =
      [("unitGroup", "uk"), ("include", "hours,obs"),
       ("elements", "datetime,precip"), ("key", key)] :=
  ⟨rfl, rfl, rfl, rfl⟩

/-- C6: a precipitation update with a non-2xx status or a failed transport
surfaces update-failed and keeps the prior Timeline unchanged, while a 2xx
response stores the parsed body verbatim as the new Timeline. -/
theorem precip_failure_retains_timeline {γ : Type} (prior : Option γ)
    (out : TransportOutcome γ) :
    (out = TransportOutcome.transportError →
      precipStep prior out = (prior, some CoordFailure.updateFailed)) ∧
    (∀ st body, out = TransportOutcome.response st body → ok_status st = false →
      precipStep prior out = (prior, some CoordFailure.updateFailed)) ∧
    (∀ st body, out = TransportOutcome.response st body → ok_status st = true →
      precipStep prior out = (some body, none)) := by
  refine ⟨?_, ?_, ?_⟩
  · intro h
    subst h
    rfl
  · intro st body h hst
    subst h
    simp [precipStep, precip_async_update_data, hst]
  · intro st body h hst
    subst h
    simp [precipStep, precip_async_update_data, hst]

/-- Witness for C6 at concrete statuses and a concrete prior Timeline. -/
theorem precip_failure_retains_timeline_witness :
    @precipStep Nat (some 5) (TransportOutcome.response 404 7) =
      (some 5, some CoordFailure.updateFailed) ∧
    @precipStep Nat (some 5) TransportOutcome.transportError =
      (some 5, some CoordFailure.updateFailed) ∧
    @precipStep Nat (some 5) (TransportOutcome.response 200 7) = (some 7, none) := by
  refine ⟨?_, ?_, ?_⟩
  · exact (precip_failure_retains_timeline (some 5)
      (TransportOutcome.response 404 7)).2.1 404 7 rfl (by decide)
  · exact (precip_failure_retains_timeline (some 5)
      TransportOutcome.transportError).1 rfl
  · exact (precip_failure_retains_timeline (some 5)
      (TransportOutcome.response 200 7)).2.2 200 7 rfl (by decide)

/-- C8: on a Timeline whose days list is empty, each of the four aggregation
functions returns the total 0.00 for any current time. -/
theorem empty_timeline_total (tl : Timeline) (now today : ℤ) (h : tl.days = []) :
    trailing_hours tl now 24 = 0 ∧ trailing_days tl today 7 = 0 ∧
    leading_hours tl now 24 = 0 ∧ leading_days tl today 7 = 0 := by
  rw [trailing_hours, trailing_days, leading_hours, leading_days, h]
  simp [round2_zero]

/-- Witness for C8 at the concrete empty Timeline. -/
theorem empty_timeline_total_witness :
    trailing_hours emptyTimeline 0 24 = 0 ∧ trailing_days emptyTimeline 0 7 = 0 ∧
    leading_hours emptyTimeline 0 24 = 0 ∧ leading_days emptyTimeline 0 7 = 0 :=
  empty_timeline_total emptyTimeline 0 0 rfl

/-- C9: `trailing_hours tl now 24` is the rounded sum of exactly those
`Hour.precip` values (null read as 0) whose timestamp lies in the half-open
window `now - 24h <= ts < now`: the lower bound `now - 86400` is included
and an Hour at exactly `now` is excluded. -/
theorem trailing_hours_halfopen (tl : Timeline) (now : ℤ) :
    trailing_hours tl now 24 =
      round2 (((allHours tl).filter
        (fun h => decide (now - 86400 ≤ h.ts ∧ h.ts < now))).map
          (fun h => precipOrZero h.precip)).sum := by
  have hpred : ∀ ts : ℤ,
      inWindow (now - ((24 : ℕ) : ℤ) * 3600) now ts =
        decide (now - 86400 ≤ ts ∧ ts < now) := by
    intro ts
    have h24 : now - ((24 : ℕ) : ℤ) * 3600 = now - 86400 := by norm_num
    rw [inWindow, h24]
    simp
  rw [trailing_hours, allHours, daysFold_eq_filter_sum, zero_add,
    List.filter_congr (fun x _ => hpred x.ts)]
